import Mathlib

/-
Shallow embedding of the core of the `proj1` CLI task manager
(`src/auth.rs`, `src/todo.rs`, `src/reminder.rs`, `src/main.rs`).

Modelling conventions:
- Instants (chrono `DateTime<Utc>` / `DateTime<Local>` / `NaiveDateTime`) are
  modelled as `Int` Unix timestamps in seconds; a chrono `Duration` is an
  `Int` number of seconds.  `Duration::num_days` / `num_hours` truncate
  toward zero (i64 division), modelled with `Int.tdiv`.
- `HashMap<String, _>` is modelled as an association list
  `List (String × _)`; `insert` replaces in place, `values()` iterates in
  list order.
- The storage adapter (`src/storage.rs` is not part of the core under
  verification; the spec declares it an external collaborator) is modelled
  by passing each call's outcome as an `Except String Unit` parameter; the
  bcrypt `hash` / `verify` functions are likewise abstract parameters.
- Fallible Rust functions returning `anyhow::Result` become
  `Except String _`, carrying the `anyhow!` message.
-/

namespace TodoCli

/-- Task status (`src/todo.rs`, `enum Status`). -/
inductive Status
  | pending
  | completed
deriving DecidableEq

/-- Task priority (`src/todo.rs`, `enum Priority`). -/
inductive Priority
  | low
  | medium
  | high
deriving DecidableEq

/-- A task record (`src/todo.rs`, `struct Todo`).  `due_date` and the two
timestamps are instants in seconds (see header comment). -/
structure Todo where
  id : String
  title : String
  description : Option String
  status : Status
  priority : Priority
  due_date : Option Int
  created_at : Int
  updated_at : Int
  user_id : String
deriving DecidableEq

/-- Reminder severity (`src/reminder.rs`, `enum ReminderPriority`),
declaration order Info, Warning, Critical. -/
inductive ReminderPriority
  | info
  | warning
  | critical
deriving DecidableEq

/-- A derived reminder (`src/reminder.rs`, `struct Reminder`). -/
structure Reminder where
  message : String
  emoji : String
  priority : ReminderPriority
deriving DecidableEq

/-- Declaration-order discriminant of `ReminderPriority`, as used by the
derived `PartialOrd` implementation in Rust. -/
def ReminderPriority.disc : ReminderPriority → Nat
  | .info => 0
  | .warning => 1
  | .critical => 2

/-- Model of the derived `PartialOrd::partial_cmp` on `ReminderPriority`
(`#[derive(PartialEq, PartialOrd)]`): for a fieldless enum the derived
implementation compares declaration-order discriminants.  The result is an
`Option Ordering` because Rust's `partial_cmp` is in general partial; the
`unwrap` at the sort site can observe a `none`. -/
def ReminderPriority.pcmp (a b : ReminderPriority) : Option Ordering :=
  some (compare a.disc b.disc)

/-- Number of seconds in `Duration::days n`. -/
def durationDays (n : Int) : Int := n * 86400

/-- chrono `Duration::num_days`: whole days, truncated toward zero. -/
def numDays (d : Int) : Int := d.tdiv 86400

/-- chrono `Duration::num_hours`: whole hours, truncated toward zero. -/
def numHours (d : Int) : Int := d.tdiv 3600

/-- The ASCII single-quote character used in the reminder message texts. -/
def sq : String := String.singleton (Char.ofNat 39)

/-- Body of the first loop of `ReminderService::get_reminders` for one
pending todo that has a due date: classify `due - now` and build the
reminder, or produce nothing when the task is due 7 or more days out. -/
def dueReminder (title : String) (due now : Int) : Option Reminder :=
  let time_diff := due - now
  if time_diff < 0 then
    let days_overdue := numDays (-time_diff)
    let hours_overdue := numHours (-time_diff)
    let message :=
      if days_overdue > 0 then
        sq ++ title ++ sq ++ " is " ++ toString days_overdue ++ " day(s) overdue!"
      else
        sq ++ title ++ sq ++ " is " ++ toString hours_overdue ++ " hour(s) overdue!"
    some { message := message, emoji := "🚨", priority := .critical }
  else if time_diff < durationDays 1 then
    let hours_left := numHours time_diff
    let message :=
      if hours_left < 1 then
        sq ++ title ++ sq ++ " is due in less than an hour!"
      else
        sq ++ title ++ sq ++ " is due in " ++ toString hours_left ++ " hour(s)!"
    some { message := message, emoji := "⏰", priority := .warning }
  else if time_diff < durationDays 2 then
    some { message := sq ++ title ++ sq ++ " is due tomorrow!",
           emoji := "📅", priority := .info }
  else if time_diff < durationDays 7 then
    let days_left := numDays time_diff
    some { message := sq ++ title ++ sq ++ " is due in " ++ toString days_left ++ " day(s)!",
           emoji := "📋", priority := .info }
  else
    none

/-- First loop of `get_reminders`: pending todos, in input order, those with
a due date classified by `dueReminder`. -/
def duePass (todos : List Todo) (now : Int) : List Reminder :=
  (todos.filter fun t => decide (t.status = Status.pending)).filterMap fun t =>
    match t.due_date with
    | some due => dueReminder t.title due now
    | none => none

/-- Second loop of `get_reminders`: pending todos without a due date that
are older than 7 days get an Info reminder. -/
def noDuePass (todos : List Todo) (now : Int) : List Reminder :=
  (todos.filter fun t => decide (t.status = Status.pending) && t.due_date.isNone).filterMap
    fun t =>
      let age := now - t.created_at
      if age > durationDays 7 then
        some { message := sq ++ t.title ++ sq ++ " has been pending for "
                 ++ toString (numDays age) ++ " day(s) - consider setting a due date!",
               emoji := "💭", priority := .info }
      else
        none

/-- The reminder list as collected by the two loops of `get_reminders`,
before the final sort. -/
def collectReminders (todos : List Todo) (now : Int) : List Reminder :=
  duePass todos now ++ noDuePass todos now

/-- The comparator closure passed to `sort_by` in `get_reminders`:
`b.priority.partial_cmp(&a.priority)` (note the argument swap, giving a
descending order), before the `unwrap`. -/
def reminderCmp (a b : Reminder) : Option Ordering :=
  ReminderPriority.pcmp b.priority a.priority

/-- Stable insertion step for a possibly partial comparator: `a` is placed
before the first element it does not compare `gt` against; a failed
comparison (where Rust's `unwrap` would panic) yields `none`. -/
def insertByOpt {α : Type} (c : α → α → Option Ordering) (a : α) :
    List α → Option (List α)
  | [] => some [a]
  | b :: l =>
    match c a b with
    | none => none
    | some Ordering.gt => (insertByOpt c a l).map fun l2 => b :: l2
    | some _ => some (a :: b :: l)

/-- Stable sort for a possibly partial comparator, modelling Rust's stable
`slice::sort_by` together with the panic of the comparator's `unwrap`
(`none` = panic).  For a comparator that is a total preorder the output of
any stable sort is unique, so insertion sort is a faithful model. -/
def sortByOpt {α : Type} (c : α → α → Option Ordering) : List α → Option (List α)
  | [] => some []
  | a :: l => (sortByOpt c l).bind (insertByOpt c a)

/-- `ReminderService::get_reminders` (`src/reminder.rs`): collect reminders
for pending due-dated todos, then for old pending todos without a due date,
then sort by priority descending with
`sort_by(|a, b| b.priority.partial_cmp(&a.priority).unwrap())`.
The result is `none` exactly when that `unwrap` would panic. -/
def get_reminders (todos : List Todo) (now : Int) : Option (List Reminder) :=
  sortByOpt reminderCmp (collectReminders todos now)

/-- Total version of the sort comparator: the `Ordering` inside
`reminderCmp` (proved below to always be present). -/
def reminderCmpT (a b : Reminder) : Ordering :=
  compare b.priority.disc a.priority.disc

/-- Stable insertion for a total comparator. -/
def insertBy {α : Type} (c : α → α → Ordering) (a : α) : List α → List α
  | [] => [a]
  | b :: l => if c a b = Ordering.gt then b :: insertBy c a l else a :: b :: l

/-- Stable insertion sort for a total comparator. -/
def sortBy {α : Type} (c : α → α → Ordering) : List α → List α
  | [] => []
  | a :: l => insertBy c a (sortBy c l)

/-- Association-list lookup, modelling `HashMap::get`. -/
def lookupA {β : Type} (k : String) : List (String × β) → Option β
  | [] => none
  | (k2, v) :: l => if k2 = k then some v else lookupA k l

/-- Association-list insert-or-replace, modelling `HashMap::insert`. -/
def insertA {β : Type} (k : String) (v : β) : List (String × β) → List (String × β)
  | [] => [(k, v)]
  | (k2, v2) :: l => if k2 = k then (k, v) :: l else (k2, v2) :: insertA k v l

/-- Association-list removal of a key, modelling `HashMap::remove`. -/
def removeA {β : Type} (k : String) : List (String × β) → List (String × β)
  | [] => []
  | (k2, v2) :: l => if k2 = k then l else (k2, v2) :: removeA k l

/-- The values of the map, modelling `HashMap::values` iteration order. -/
def valuesA {β : Type} (m : List (String × β)) : List β := m.map Prod.snd

/-- Outcome chain shared by the task mutations: after the in-memory map has
been mutated, `save_todos` runs and its error propagates, then the markdown
mirror write runs and its error propagates
(`self.storage.save_todos(&self.todos)?; self.storage.<mirror>(&todo)?;`). -/
def persistChain (m2 : List (String × Todo)) (save mirror : Except String Unit) :
    List (String × Todo) × Except String Unit :=
  match save with
  | .error e => (m2, .error e)
  | .ok _ =>
    match mirror with
    | .error e => (m2, .error e)
    | .ok _ => (m2, .ok ())

/-- `TodoManager::add_todo` (`src/todo.rs`): insert into the map, persist,
append to the markdown mirror.  `save` and `mirror` are the outcomes of the
two storage calls. -/
def addTodo (m : List (String × Todo)) (todo : Todo) (save mirror : Except String Unit) :
    List (String × Todo) × Except String Unit :=
  persistChain (insertA todo.id todo m) save mirror

/-- `TodoManager::get_user_todos` (`src/todo.rs`): all map values whose
`user_id` equals the given user id. -/
def getUserTodos (m : List (String × Todo)) (uid : String) : List Todo :=
  (valuesA m).filter fun t => decide (t.user_id = uid)

/-- `TodoManager::get_todo` (`src/todo.rs`). -/
def getTodo (m : List (String × Todo)) (tid : String) : Except String Todo :=
  match lookupA tid m with
  | some t => .ok t
  | none => .error "Todo not found"

/-- `TodoManager::complete_todo` (`src/todo.rs`): fail when the id is
absent, else set status to Completed, refresh `updated_at`, persist and
update the mirror entry. -/
def completeTodo (m : List (String × Todo)) (tid : String) (now : Int)
    (save mirror : Except String Unit) : List (String × Todo) × Except String Unit :=
  match lookupA tid m with
  | none => (m, .error "Todo not found")
  | some t =>
    persistChain (insertA tid { t with status := Status.completed, updated_at := now } m)
      save mirror

/-- `TodoManager::update_todo` (`src/todo.rs`): unconditional
insert-or-replace keyed by the record's id, then persist and mirror. -/
def updateTodo (m : List (String × Todo)) (todo : Todo) (save mirror : Except String Unit) :
    List (String × Todo) × Except String Unit :=
  persistChain (insertA todo.id todo m) save mirror

/-- `TodoManager::delete_todo` (`src/todo.rs`): fail when the id is absent,
else remove, persist and remove the mirror entry. -/
def deleteTodo (m : List (String × Todo)) (tid : String)
    (save mirror : Except String Unit) : List (String × Todo) × Except String Unit :=
  match lookupA tid m with
  | none => (m, .error "Todo not found")
  | some _ => persistChain (removeA tid m) save mirror

/-- A user record (`src/auth.rs`, `struct User`). -/
structure User where
  id : String
  username : String
  email : String
  password_hash : String
  created_at : Int
  last_login : Option Int
deriving DecidableEq

/-- The session record (`src/auth.rs`, `struct Session`). -/
structure Session where
  user_id : String
  created_at : Int
  expires_at : Int
deriving DecidableEq

/-- `AuthManager::register` (`src/auth.rs`).  `hashFn` abstracts
`bcrypt::hash`, `freshId` the generated `Uuid`, `save` the
`save_users` outcome.  The five validation checks run in source order
before the password is hashed or anything is inserted. -/
def register (users : List (String × User)) (username email password : String)
    (hashFn : String → Except String String) (freshId : String) (now : Int)
    (save : Except String Unit) : List (String × User) × Except String User :=
  if (valuesA users).any (fun u => decide (u.username = username)) then
    (users, .error "Username already exists")
  else if (valuesA users).any (fun u => decide (u.email = email)) then
    (users, .error "Email already exists")
  else if username.trim.isEmpty then
    (users, .error "Username cannot be empty")
  else if email.trim.isEmpty || !(email.contains '@') then
    (users, .error "Invalid email address")
  else if password.utf8ByteSize < 6 then
    (users, .error "Password must be at least 6 characters long")
  else
    match hashFn password with
    | .error _ => (users, .error "Failed to hash password")
    | .ok password_hash =>
      let user : User :=
        { id := freshId, username := username, email := email,
          password_hash := password_hash, created_at := now, last_login := none }
      let users2 := insertA freshId user users
      match save with
      | .error e => (users2, .error e)
      | .ok _ => (users2, .ok user)

/-- `AuthManager::login` (`src/auth.rs`).  `vf` abstracts `bcrypt::verify`
(`.error` = verification itself failed, `.ok b` = hash comparison result);
`saveUsers` and `saveSession` are the storage outcomes.  Returns the new
`(users, session)` state and the result. -/
def login (users : List (String × User)) (session : Option Session)
    (username password : String) (vf : String → String → Except String Bool)
    (now : Int) (saveUsers saveSession : Except String Unit) :
    (List (String × User) × Option Session) × Except String User :=
  match (valuesA users).find? (fun u => decide (u.username = username)) with
  | none => ((users, session), .error "Invalid username or password")
  | some u =>
    match vf password u.password_hash with
    | .error _ => ((users, session), .error "Failed to verify password")
    | .ok false => ((users, session), .error "Invalid username or password")
    | .ok true =>
      let updated : User := { u with last_login := some now }
      let users2 := insertA updated.id updated users
      match saveUsers with
      | .error e => ((users2, session), .error e)
      | .ok _ =>
        let s : Session :=
          { user_id := updated.id, created_at := now, expires_at := now + durationDays 7 }
        match saveSession with
        | .error e => ((users2, some s), .error e)
        | .ok _ => ((users2, some s), .ok updated)

/-- `AuthManager::is_authenticated` (`src/auth.rs`): a session exists and
its expiry is strictly after now. -/
def is_authenticated (session : Option Session) (now : Int) : Bool :=
  match session with
  | some s => decide (now < s.expires_at)
  | none => false

/-- `AuthManager::get_current_user` (`src/auth.rs`). -/
def get_current_user (users : List (String × User)) (session : Option Session)
    (now : Int) : Except String User :=
  match session with
  | none => .error "Not authenticated"
  | some s =>
    if s.expires_at ≤ now then .error "Session expired"
    else
      match lookupA s.user_id users with
      | none => .error "User not found"
      | some u => .ok u

/-- `TodoApp::complete_todo` with an explicit id (`src/main.rs`): after
`ensure_authenticated` (modelled as an error instead of `process::exit`)
and `get_current_user`, the id is passed straight to
`TodoManager::complete_todo` — the flow never compares the task's
`user_id` with the authenticated user's id. -/
def appCompleteTodo (users : List (String × User)) (session : Option Session)
    (m : List (String × Todo)) (tid : String) (now : Int)
    (save mirror : Except String Unit) : List (String × Todo) × Except String Unit :=
  if !is_authenticated session now then
    (m, .error "Please login first")
  else
    match get_current_user users session now with
    | .error e => (m, .error e)
    | .ok _ => completeTodo m tid now save mirror

/-- `TodoApp::delete_todo` with an explicit id (`src/main.rs`): after
`ensure_authenticated` (modelled as an error instead of `process::exit`)
and `get_current_user`, the id is passed straight to
`TodoManager::delete_todo` — like the complete flow, it never compares the
task's `user_id` with the authenticated user's id. -/
def appDeleteTodo (users : List (String × User)) (session : Option Session)
    (m : List (String × Todo)) (tid : String) (now : Int)
    (save mirror : Except String Unit) : List (String × Todo) × Except String Unit :=
  if !is_authenticated session now then
    (m, .error "Please login first")
  else
    match get_current_user users session now with
    | .error e => (m, .error e)
    | .ok _ => deleteTodo m tid save mirror

/-- The five validation checks of `register` in their fixed source order
(username uniqueness, email uniqueness, username non-empty, email validity,
password length), returning the error of the first failing check.  This is
the specification-side description of the rejection behaviour, to be
compared with `register` itself. -/
def registerCheckErr (users : List (String × User)) (username email password : String) :
    Option String :=
  if (valuesA users).any (fun u => decide (u.username = username)) then
    some "Username already exists"
  else if (valuesA users).any (fun u => decide (u.email = email)) then
    some "Email already exists"
  else if username.trim.isEmpty then
    some "Username cannot be empty"
  else if email.trim.isEmpty || !(email.contains '@') then
    some "Invalid email address"
  else if password.utf8ByteSize < 6 then
    some "Password must be at least 6 characters long"
  else
    none

deriving instance DecidableEq for Except

/-! Concrete fixtures used by the counterexample and witness theorems. -/

/-- Pending task due exactly one day before the evaluation instant 0. -/
def c1t1 : Todo :=
  { id := "a", title := "A", description := none, status := .pending, priority := .low,
    due_date := some (-86400), created_at := 0, updated_at := 0, user_id := "u" }

/-- Pending task due 12 hours after the evaluation instant 0. -/
def c1t2 : Todo :=
  { id := "b", title := "B", description := none, status := .pending, priority := .low,
    due_date := some 43200, created_at := 0, updated_at := 0, user_id := "u" }

/-- Pending task due 3 days after the evaluation instant 0. -/
def c1t3 : Todo :=
  { id := "c", title := "C", description := none, status := .pending, priority := .low,
    due_date := some 259200, created_at := 0, updated_at := 0, user_id := "u" }

/-- Pending task whose due instant equals the evaluation instant 1000. -/
def c3Task : Todo :=
  { id := "t1", title := "T", description := none, status := .pending, priority := .low,
    due_date := some 1000, created_at := 0, updated_at := 0, user_id := "u" }

/-- Pending task without a due date, created 11+ days before instant 1000000. -/
def c4tA : Todo :=
  { id := "a", title := "A", description := none, status := .pending, priority := .low,
    due_date := none, created_at := 0, updated_at := 0, user_id := "u" }

/-- Pending task due 3 days after the evaluation instant 1000000. -/
def c4tB : Todo :=
  { id := "b", title := "B", description := none, status := .pending, priority := .low,
    due_date := some 1259200, created_at := 0, updated_at := 0, user_id := "u" }

/-- Concrete user A (the authenticated user in the ownership scenario). -/
def c2UserA : User :=
  { id := "A", username := "alice", email := "alice@example.com",
    password_hash := "hA", created_at := 0, last_login := none }

/-- Concrete user B (the other owner in the ownership scenario). -/
def c2UserB : User :=
  { id := "B", username := "bob", email := "bob@example.com",
    password_hash := "hB", created_at := 0, last_login := none }

/-- A pending task owned by user B. -/
def c2TaskB : Todo :=
  { id := "tB", title := "Bob task", description := none, status := .pending,
    priority := .low, due_date := none, created_at := 0, updated_at := 0, user_id := "B" }

/-- A registered user occupying the username `alice` and its email. -/
def regUser0 : User :=
  { id := "id0", username := "alice", email := "alice@example.com",
    password_hash := "h0", created_at := 0, last_login := none }

/-- A concrete pending task keyed by id `x`, used by several witnesses. -/
def witTask : Todo :=
  { id := "x", title := "X", description := none, status := .pending, priority := .low,
    due_date := none, created_at := 0, updated_at := 0, user_id := "u" }

/-- A second concrete task, with id `y` and status Completed. -/
def witTask2 : Todo :=
  { id := "y", title := "Y", description := none, status := .completed, priority := .high,
    due_date := some 7, created_at := 1, updated_at := 2, user_id := "v" }

/-! Helper lemmas about the association-list operations and the sort. -/

theorem lookupA_insertA {β : Type} (k : String) (v : β) (m : List (String × β)) :
    lookupA k (insertA k v m) = some v := by
  induction m with
  | nil => simp [insertA, lookupA]
  | cons p l ih =>
    obtain ⟨k2, v2⟩ := p
    by_cases h : k2 = k
    · simp [insertA, h, lookupA]
    · simp [insertA, h, lookupA, ih]

theorem reminderCmp_total (a b : Reminder) :
    reminderCmp a b = some (reminderCmpT a b) := rfl

theorem insertByOpt_total {α : Type} (c : α → α → Option Ordering)
    (ct : α → α → Ordering) (h : ∀ a b, c a b = some (ct a b)) (a : α)
    (l : List α) : insertByOpt c a l = some (insertBy ct a l) := by
  induction l with
  | nil => rfl
  | cons b l ih =>
    simp only [insertByOpt, insertBy, h a b]
    cases hc : ct a b
    · simp [hc]
    · simp [hc]
    · simp [hc, ih]

theorem sortByOpt_total {α : Type} (c : α → α → Option Ordering)
    (ct : α → α → Ordering) (h : ∀ a b, c a b = some (ct a b)) (l : List α) :
    sortByOpt c l = some (sortBy ct l) := by
  induction l with
  | nil => rfl
  | cons a l ih =>
    simp only [sortByOpt, sortBy, ih, Option.bind_some]
    exact insertByOpt_total c ct h a (sortBy ct l)

theorem get_reminders_eq_sortBy (todos : List Todo) (now : Int) :
    get_reminders todos now = some (sortBy reminderCmpT (collectReminders todos now)) :=
  sortByOpt_total reminderCmp reminderCmpT reminderCmp_total _

theorem mem_insertBy {α : Type} (c : α → α → Ordering) (a x : α) (l : List α) :
    x ∈ insertBy c a l ↔ x = a ∨ x ∈ l := by
  induction l with
  | nil => simp [insertBy]
  | cons b l ih =>
    by_cases h : c a b = Ordering.gt
    · simp only [insertBy, if_pos h, List.mem_cons, ih]
      tauto
    · simp only [insertBy, if_neg h, List.mem_cons]

theorem pairwise_insertBy {α : Type} (c : α → α → Ordering)
    (htot : ∀ x y, c x y = Ordering.gt → c y x ≠ Ordering.gt)
    (htrans : ∀ x y z, c x y ≠ Ordering.gt → c y z ≠ Ordering.gt → c x z ≠ Ordering.gt)
    (a : α) (l : List α) (hl : l.Pairwise fun x y => c x y ≠ Ordering.gt) :
    (insertBy c a l).Pairwise fun x y => c x y ≠ Ordering.gt := by
  induction l with
  | nil => simp [insertBy]
  | cons b l ih =>
    rw [List.pairwise_cons] at hl
    by_cases h : c a b = Ordering.gt
    · rw [insertBy, if_pos h, List.pairwise_cons]
      refine ⟨fun y hy => ?_, ih hl.2⟩
      rcases (mem_insertBy c a y l).mp hy with rfl | hyl
      · exact htot y b h
      · exact hl.1 y hyl
    · rw [insertBy, if_neg h, List.pairwise_cons]
      refine ⟨fun y hy => ?_, List.pairwise_cons.mpr hl⟩
      rcases List.mem_cons.mp hy with rfl | hyl
      · exact h
      · exact htrans a b y h (hl.1 y hyl)

theorem pairwise_sortBy {α : Type} (c : α → α → Ordering)
    (htot : ∀ x y, c x y = Ordering.gt → c y x ≠ Ordering.gt)
    (htrans : ∀ x y z, c x y ≠ Ordering.gt → c y z ≠ Ordering.gt → c x z ≠ Ordering.gt)
    (l : List α) : (sortBy c l).Pairwise fun x y => c x y ≠ Ordering.gt := by
  induction l with
  | nil => simp [sortBy]
  | cons a l ih => exact pairwise_insertBy c htot htrans a (sortBy c l) ih

theorem filter_insertBy {α : Type} (c : α → α → Ordering) (q : α → Bool)
    (hq : ∀ x y, c x y = Ordering.gt → q x = true → q y = true → False)
    (a : α) (l : List α) :
    (insertBy c a l).filter q = (a :: l).filter q := by
  induction l with
  | nil => simp [insertBy]
  | cons b l ih =>
    by_cases h : c a b = Ordering.gt
    · rw [insertBy, if_pos h]
      cases hqa : q a
      · cases hqb : q b
        · simp [List.filter_cons, hqa, hqb, ih]
        · simp [List.filter_cons, hqa, hqb, ih]
      · have hqb : q b = false := by
          cases hqb2 : q b
          · rfl
          · exact absurd (hq a b h hqa hqb2) (fun f => f)
        simp [List.filter_cons, hqa, hqb, ih]
    · rw [insertBy, if_neg h]

theorem filter_sortBy {α : Type} (c : α → α → Ordering) (q : α → Bool)
    (hq : ∀ x y, c x y = Ordering.gt → q x = true → q y = true → False)
    (l : List α) : (sortBy c l).filter q = l.filter q := by
  induction l with
  | nil => rfl
  | cons a l ih =>
    rw [sortBy, filter_insertBy c q hq, List.filter_cons, List.filter_cons, ih]

theorem reminderCmpT_asym (x y : Reminder) (h : reminderCmpT x y = Ordering.gt) :
    reminderCmpT y x ≠ Ordering.gt := by
  unfold reminderCmpT at *
  rw [Nat.compare_eq_gt] at h
  rw [Nat.compare_ne_gt]
  omega

theorem reminderCmpT_trans (x y z : Reminder) (hxy : reminderCmpT x y ≠ Ordering.gt)
    (hyz : reminderCmpT y z ≠ Ordering.gt) : reminderCmpT x z ≠ Ordering.gt := by
  unfold reminderCmpT at *
  rw [Nat.compare_ne_gt] at hxy hyz ⊢
  omega

theorem reminderCmpT_gt_of_priority (x y : Reminder) (h : reminderCmpT x y = Ordering.gt)
    (p : ReminderPriority) :
    decide (x.priority = p) = true → decide (y.priority = p) = true → False := by
  intro hx hy
  rw [decide_eq_true_eq] at hx hy
  unfold reminderCmpT at h
  rw [Nat.compare_eq_gt] at h
  rw [hx, hy] at h
  omega

theorem dueReminder_shift (t : String) (due now : Int) :
    dueReminder t due now = dueReminder t (due - now) 0 := by
  unfold dueReminder
  have h2 : due - now - 0 = due - now := by ring
  rw [h2]

theorem persistChain_fst (m2 : List (String × Todo)) (s mi : Except String Unit) :
    (persistChain m2 s mi).1 = m2 := by
  cases s <;> cases mi <;> rfl

/-! Claim theorems. -/

/-- C1 (counterexample): for the concrete snapshot of three pending tasks
due at now - 1 day, now + 12 hours and now + 3 days, `get_reminders`
returns 3 reminders, not the 2 the claim states: the task due in 3 days is
not suppressed but produces an Info reminder. -/
theorem c1_counterexample :
    (get_reminders [c1t1, c1t2, c1t3] 0).map List.length = some 3 ∧
    (get_reminders [c1t1, c1t2, c1t3] 0).map List.length ≠ some 2 ∧
    (get_reminders [c1t1, c1t2, c1t3] 0).map (fun rs => rs.map Reminder.priority) =
      some [.critical, .warning, .info] := by
  refine ⟨by decide, by decide, by decide⟩

/-- C1 (amended): for every snapshot of exactly three pending tasks with
due instants at now - 1 day, now + 12 hours and now + 3 days respectively,
`get_reminders` returns exactly 3 reminders ordered Critical, Warning,
Info — the task due in 3 days generates an Info reminder (only tasks due
7 or more days out are suppressed). -/
theorem c1_three_tasks_reminders (now : Int) (id1 id2 id3 ttl1 ttl2 ttl3 uid : String)
    (d1 d2 d3 : Option String) (p1 p2 p3 : Priority) (ca ua : Int) :
    (get_reminders
      [{ id := id1, title := ttl1, description := d1, status := .pending, priority := p1,
         due_date := some (now - 86400), created_at := ca, updated_at := ua, user_id := uid },
       { id := id2, title := ttl2, description := d2, status := .pending, priority := p2,
         due_date := some (now + 43200), created_at := ca, updated_at := ua, user_id := uid },
       { id := id3, title := ttl3, description := d3, status := .pending, priority := p3,
         due_date := some (now + 3 * 86400), created_at := ca, updated_at := ua, user_id := uid }]
      now).map (fun rs => rs.map Reminder.priority) = some [.critical, .warning, .info] := by
  rw [get_reminders_eq_sortBy]
  simp only [collectReminders, duePass, noDuePass, List.filter_cons, List.filter_nil,
    List.filterMap_cons, List.filterMap_nil, decide_True, Bool.true_and, Option.isNone_some,
    Bool.and_false, if_true, if_false, Bool.false_eq_true]
  rw [dueReminder_shift ttl1, dueReminder_shift ttl2, dueReminder_shift ttl3]
  have h1 : now - 86400 - now = (-86400 : Int) := by ring
  have h2 : now + 43200 - now = (43200 : Int) := by ring
  have h3 : now + 3 * 86400 - now = (259200 : Int) := by ring
  rw [h1, h2, h3]
  simp [dueReminder, numDays, numHours, durationDays, sortBy, insertBy, reminderCmpT,
    ReminderPriority.disc, Nat.compare_eq_gt, Int.tdiv]

/-- C3 (counterexample): a pending task whose due instant equals the
current instant exactly is not classified overdue/Critical: `get_reminders`
emits a single Warning reminder (the due-today branch), because the
overdue branch requires `time_diff < 0` strictly. -/
theorem c3_counterexample :
    get_reminders [c3Task] 1000 =
      some [{ message := sq ++ "T" ++ sq ++ " is due in less than an hour!",
              emoji := "⏰", priority := .warning }] ∧
    (get_reminders [c3Task] 1000).map (fun rs => rs.map Reminder.priority) ≠
      some [.critical] := by
  refine ⟨by decide, by decide⟩

/-- C3 (amended): for every pending task whose due instant equals the
current instant exactly, the reminder derivation classifies it as due today
and emits a single Warning reminder; Critical requires the due instant to
be strictly in the past. -/
theorem c3_due_now_warning (now : Int) (tid ttl uid : String) (dsc : Option String)
    (p : Priority) (ca ua : Int) :
    (get_reminders
      [{ id := tid, title := ttl, description := dsc, status := .pending, priority := p,
         due_date := some now, created_at := ca, updated_at := ua, user_id := uid }]
      now).map (fun rs => rs.map Reminder.priority) = some [.warning] := by
  rw [get_reminders_eq_sortBy]
  simp only [collectReminders, duePass, noDuePass, List.filter_cons, List.filter_nil,
    List.filterMap_cons, List.filterMap_nil, decide_True, Bool.true_and, Option.isNone_some,
    Bool.and_false, if_true, if_false, Bool.false_eq_true]
  rw [dueReminder_shift]
  have h0 : now - now = (0 : Int) := by ring
  rw [h0]
  simp [dueReminder, numDays, numHours, durationDays, sortBy, insertBy, reminderCmpT,
    ReminderPriority.disc, Nat.compare_eq_gt, Int.tdiv]

/-- C4 (counterexample): equal-severity reminders do not always keep the
relative input order of the tasks that produced them.  With input tasks
[A (old, no due date), B (due in 3 days)], both reminders are Info, yet
the reminder for B (input position 1) precedes the reminder for A (input
position 0), because due-date reminders are collected in a first pass and
no-due-date reminders only in a second pass. -/
theorem c4_counterexample :
    (get_reminders [c4tA, c4tB] 1000000).map (fun rs => rs.map Reminder.message) =
      some [sq ++ "B" ++ sq ++ " is due in 3 day(s)!",
            sq ++ "A" ++ sq ++ " has been pending for 11 day(s) - consider setting a due date!"] ∧
    (get_reminders [c4tA, c4tB] 1000000).map (fun rs => rs.map Reminder.priority) =
      some [.info, .info] := by
  refine ⟨by decide, by decide⟩

/-- C4 (amended): for every input task sequence, `get_reminders` sorts by
severity descending (every Critical before every Warning before every
Info), and any two reminders of equal severity keep the relative order in
which they were collected — where the collection emits reminders for
due-dated tasks (in input order) before reminders for old tasks without a
due date (in input order). -/
theorem c4_sorted_stable (todos : List Todo) (now : Int) :
    get_reminders todos now = some (sortBy reminderCmpT (collectReminders todos now)) ∧
    (sortBy reminderCmpT (collectReminders todos now)).Pairwise
      (fun a b => b.priority.disc ≤ a.priority.disc) ∧
    ∀ p : ReminderPriority,
      (sortBy reminderCmpT (collectReminders todos now)).filter
          (fun r => decide (r.priority = p)) =
        (collectReminders todos now).filter (fun r => decide (r.priority = p)) := by
  refine ⟨get_reminders_eq_sortBy todos now, ?_, ?_⟩
  · have h := pairwise_sortBy reminderCmpT reminderCmpT_asym reminderCmpT_trans
      (collectReminders todos now)
    exact h.imp fun hxy => by
      have hle := Nat.compare_ne_gt.mp hxy
      exact hle
  · intro p
    exact filter_sortBy reminderCmpT (fun r => decide (r.priority = p))
      (fun x y hxy hx hy => reminderCmpT_gt_of_priority x y hxy p hx hy) _

/-- C10: `get_reminders` is total.  The derived `partial_cmp` on the three
`ReminderPriority` variants always returns a result, so the comparator
`unwrap` inside `sort_by` never fails, and the sort (modelled with `none`
standing for a comparator panic) always produces a list. -/
theorem c10_get_reminders_total :
    (∀ a b : ReminderPriority, (ReminderPriority.pcmp a b).isSome = true) ∧
    ∀ (todos : List Todo) (now : Int), (get_reminders todos now).isSome = true := by
  constructor
  · intro a b
    rfl
  · intro todos now
    rw [get_reminders_eq_sortBy]
    rfl

/-- C2 (counterexample): the id-addressed flows do let a user observe and
mutate a task it does not own.  With user A authenticated (valid unexpired
session) and a pending task that belongs to user B: `get_todo` on B's task
id returns B's task, `TodoApp::complete_todo` on that id succeeds and
marks B's task Completed, and `TodoApp::delete_todo` on that id succeeds
and removes B's task — although B's `user_id` differs from A's id. -/
theorem c2_counterexample :
    getTodo [("tB", c2TaskB)] "tB" = .ok c2TaskB ∧
    (appCompleteTodo [("A", c2UserA), ("B", c2UserB)] (some ⟨"A", 0, 604800⟩)
        [("tB", c2TaskB)] "tB" 10 (.ok ()) (.ok ())).2 = .ok () ∧
    lookupA "tB" (appCompleteTodo [("A", c2UserA), ("B", c2UserB)] (some ⟨"A", 0, 604800⟩)
        [("tB", c2TaskB)] "tB" 10 (.ok ()) (.ok ())).1 =
      some { c2TaskB with status := .completed, updated_at := 10 } ∧
    appDeleteTodo [("A", c2UserA), ("B", c2UserB)] (some ⟨"A", 0, 604800⟩)
        [("tB", c2TaskB)] "tB" 10 (.ok ()) (.ok ()) = ([], .ok ()) ∧
    c2TaskB.user_id = "B" ∧ ("B" : String) ≠ "A" := by
  refine ⟨by decide, by decide, by decide, by decide, by decide, by decide⟩

/-- C2 (amended): `get_user_todos` returns exactly the tasks whose
`user_id` equals the requested owner, so the multi-record read never leaks
another owner's tasks; but the id-addressed operations get, complete and
delete check only that the id is present, not ownership: each of
`get_todo`, `complete_todo` and `delete_todo` succeeds on any present id
regardless of the task's owner. -/
theorem c2_owner_scope (m : List (String × Todo)) (uid tid : String) (t : Todo)
    (now : Int) :
    (t ∈ getUserTodos m uid ↔ t ∈ valuesA m ∧ t.user_id = uid) ∧
    (lookupA tid m = some t →
      getTodo m tid = .ok t ∧
      (completeTodo m tid now (.ok ()) (.ok ())).2 = .ok () ∧
      (deleteTodo m tid (.ok ()) (.ok ())).2 = .ok ()) := by
  constructor
  · simp [getUserTodos, List.mem_filter]
  · intro h
    refine ⟨?_, ?_, ?_⟩
    · simp [getTodo, h]
    · simp [completeTodo, h, persistChain]
    · simp [deleteTodo, h, persistChain]

/-- Witness for C2 (amended) at a concrete map and task. -/
theorem c2_owner_scope_witness :
    lookupA "x" [("x", witTask)] = some witTask ∧
    getTodo [("x", witTask)] "x" = .ok witTask ∧
    (completeTodo [("x", witTask)] "x" 5 (.ok ()) (.ok ())).2 = .ok () ∧
    (deleteTodo [("x", witTask)] "x" (.ok ()) (.ok ())).2 = .ok () := by
  have h := (c2_owner_scope [("x", witTask)] "B" "x" witTask 5).2 (by decide)
  exact ⟨by decide, h.1, h.2.1, h.2.2⟩

/-- C5: for each mutation (add, update, complete, delete), when the
structured persist succeeds and the subsequent markdown-mirror write
fails, the resulting in-memory task mapping is exactly the mapping the
fully successful run produces (the mutation is retained, no rollback), and
the operation surfaces the mirror error as its result. -/
theorem c5_mirror_failure_nonfatal (m : List (String × Todo)) (todo : Todo)
    (tid : String) (now : Int) (e : String) (t : Todo) :
    ((addTodo m todo (.ok ()) (.error e)).1 = (addTodo m todo (.ok ()) (.ok ())).1 ∧
     (addTodo m todo (.ok ()) (.error e)).2 = .error e ∧
     lookupA todo.id (addTodo m todo (.ok ()) (.error e)).1 = some todo) ∧
    ((updateTodo m todo (.ok ()) (.error e)).1 = (updateTodo m todo (.ok ()) (.ok ())).1 ∧
     (updateTodo m todo (.ok ()) (.error e)).2 = .error e ∧
     lookupA todo.id (updateTodo m todo (.ok ()) (.error e)).1 = some todo) ∧
    (lookupA tid m = some t →
      (completeTodo m tid now (.ok ()) (.error e)).1 =
        (completeTodo m tid now (.ok ()) (.ok ())).1 ∧
      (completeTodo m tid now (.ok ()) (.error e)).2 = .error e ∧
      lookupA tid (completeTodo m tid now (.ok ()) (.error e)).1 =
        some { t with status := .completed, updated_at := now } ∧
      (deleteTodo m tid (.ok ()) (.error e)).1 = (deleteTodo m tid (.ok ()) (.ok ())).1 ∧
      (deleteTodo m tid (.ok ()) (.error e)).2 = .error e) := by
  refine ⟨⟨?_, rfl, ?_⟩, ⟨?_, rfl, ?_⟩, ?_⟩
  · simp [addTodo, persistChain_fst]
  · simp [addTodo, persistChain_fst, lookupA_insertA]
  · simp [updateTodo, persistChain_fst]
  · simp [updateTodo, persistChain_fst, lookupA_insertA]
  · intro h
    simp [completeTodo, deleteTodo, h, persistChain_fst, persistChain, lookupA_insertA]

/-- Witness for C5 at a concrete map, task and mirror error. -/
theorem c5_mirror_failure_nonfatal_witness :
    lookupA "x" [("x", witTask)] = some witTask ∧
    (addTodo [("x", witTask)] witTask2 (.ok ()) (.error "disk full")).2 = .error "disk full" ∧
    (completeTodo [("x", witTask)] "x" 9 (.ok ()) (.error "disk full")).2 =
      .error "disk full" := by
  have h := c5_mirror_failure_nonfatal [("x", witTask)] witTask2 "x" 9 "disk full" witTask
  exact ⟨by decide, h.1.2.1, (h.2.2 (by decide)).2.1⟩

/-- C6: `login` with a username matching no user, and `login` with a
username matching a user whose password verification returns false,
produce the identical error value "Invalid username or password"; the two
failure causes are indistinguishable from the returned error. -/
theorem c6_login_indistinguishable (users1 users2 : List (String × User))
    (s1 s2 : Option Session) (un1 pw1 un2 pw2 : String)
    (vf1 vf2 : String → String → Except String Bool) (now1 now2 : Int)
    (sa1 sb1 sa2 sb2 : Except String Unit) (u : User)
    (h1 : (valuesA users1).find? (fun x => decide (x.username = un1)) = none)
    (h2 : (valuesA users2).find? (fun x => decide (x.username = un2)) = some u)
    (h3 : vf2 pw2 u.password_hash = .ok false) :
    (login users1 s1 un1 pw1 vf1 now1 sa1 sb1).2 = .error "Invalid username or password" ∧
    (login users2 s2 un2 pw2 vf2 now2 sa2 sb2).2 = .error "Invalid username or password" ∧
    (login users1 s1 un1 pw1 vf1 now1 sa1 sb1).2 =
      (login users2 s2 un2 pw2 vf2 now2 sa2 sb2).2 := by
  simp only [login, h1, h2, h3]
  exact ⟨trivial, trivial, trivial⟩

/-- Witness for C6: no user named alice in an empty store, and user bob
whose password verifier rejects. -/
theorem c6_login_indistinguishable_witness :
    (login [] none "alice" "pw1" (fun _ _ => .ok true) 0 (.ok ()) (.ok ())).2 =
      .error "Invalid username or password" ∧
    (login [("B", c2UserB)] none "bob" "pw2" (fun _ _ => .ok false) 0 (.ok ()) (.ok ())).2 =
      .error "Invalid username or password" := by
  have h := c6_login_indistinguishable [] [("B", c2UserB)] none none "alice" "pw1"
    "bob" "pw2" (fun _ _ => .ok true) (fun _ _ => .ok false) 0 0 (.ok ()) (.ok ())
    (.ok ()) (.ok ()) c2UserB (by decide) (by decide) rfl
  exact ⟨h.1, h.2.1⟩

/-- C7: whenever any of the five registration checks fails — in the fixed
order username uniqueness, email uniqueness, username non-empty, email
validity, password length ≥ 6 — `register` returns the error of the first
failing check, leaves the user mapping unchanged, and does so for every
hash function, fresh id, timestamp and storage outcome (in particular no
password hash is computed: the result does not depend on the hash
function). -/
theorem c7_register_check_order (users : List (String × User))
    (username email password : String) (hf hf2 : String → Except String String)
    (fid fid2 : String) (now now2 : Int) (save save2 : Except String Unit) (e : String)
    (h : registerCheckErr users username email password = some e) :
    register users username email password hf fid now save = (users, .error e) ∧
    register users username email password hf2 fid2 now2 save2 = (users, .error e) := by
  unfold registerCheckErr at h
  unfold register
  split_ifs at h ⊢ <;> simp_all

/-- Witness for C7: the username, the email and the password length are
all invalid at once, and the returned error is that of the first check in
the order (username uniqueness). -/
theorem c7_register_check_order_witness :
    registerCheckErr [("id0", regUser0)] "alice" "alice@example.com" "x" =
      some "Username already exists" ∧
    register [("id0", regUser0)] "alice" "alice@example.com" "x"
        (fun s => .ok s) "newid" 3 (.ok ()) =
      ([("id0", regUser0)], .error "Username already exists") := by
  refine ⟨by decide, ?_⟩
  exact (c7_register_check_order [("id0", regUser0)] "alice" "alice@example.com" "x"
    (fun s => .ok s) (fun s => .ok s) "newid" "newid" 3 3 (.ok ()) (.ok ())
    "Username already exists" (by decide)).1

/-- C8: `complete_todo` on an absent id fails with "Todo not found" and
leaves the mapping unchanged for every storage outcome; on a present id —
including a task already Completed — it stores the task with status
Completed and `updated_at` set to the current call's time (so repeated
calls keep status Completed while refreshing `updated_at`), and succeeds
when persist and mirror succeed. -/
theorem c8_complete_spec (m : List (String × Todo)) (tid : String) (now : Int)
    (save mirror : Except String Unit) (t : Todo) :
    (lookupA tid m = none → completeTodo m tid now save mirror = (m, .error "Todo not found")) ∧
    (lookupA tid m = some t →
      (completeTodo m tid now save mirror).1 =
        insertA tid { t with status := .completed, updated_at := now } m ∧
      lookupA tid (completeTodo m tid now save mirror).1 =
        some { t with status := .completed, updated_at := now } ∧
      (completeTodo m tid now (.ok ()) (.ok ())).2 = .ok ()) := by
  constructor
  · intro h
    simp [completeTodo, h]
  · intro h
    refine ⟨?_, ?_, ?_⟩
    · simp [completeTodo, h, persistChain_fst]
    · simp [completeTodo, h, persistChain_fst, lookupA_insertA]
    · simp [completeTodo, h, persistChain]

/-- Witness for C8: the absent-id branch at the empty map, and the
present-id branch at a concrete singleton map. -/
theorem c8_complete_spec_witness :
    completeTodo [] "x" 5 (.ok ()) (.ok ()) = ([], .error "Todo not found") ∧
    lookupA "x" [("x", witTask)] = some witTask ∧
    (completeTodo [("x", witTask)] "x" 5 (.ok ()) (.ok ())).2 = .ok () :=
  ⟨(c8_complete_spec [] "x" 5 (.ok ()) (.ok ()) witTask).1 (by decide),
   by decide,
   ((c8_complete_spec [("x", witTask)] "x" 5 (.ok ()) (.ok ()) witTask).2 (by decide)).2.2⟩

/-- C9: `update_todo` has upsert semantics: for every task value — whether
or not its id is present in the mapping — the mapping afterwards holds the
record keyed by that id, and the call succeeds when the storage calls
succeed; it never produces the "Todo not found" error, unlike `complete`
and `delete`, which fail with exactly that error on an unknown id. -/
theorem c9_update_upsert (m : List (String × Todo)) (todo : Todo)
    (save mirror : Except String Unit) (now : Int) :
    (updateTodo m todo save mirror).1 = insertA todo.id todo m ∧
    lookupA todo.id (updateTodo m todo save mirror).1 = some todo ∧
    (updateTodo m todo (.ok ()) (.ok ())).2 = .ok () ∧
    (lookupA todo.id m = none →
      (completeTodo m todo.id now save mirror).2 = .error "Todo not found" ∧
      (deleteTodo m todo.id save mirror).2 = .error "Todo not found") := by
  refine ⟨persistChain_fst _ _ _, ?_, rfl, ?_⟩
  · rw [updateTodo, persistChain_fst, lookupA_insertA]
  · intro h
    simp [completeTodo, deleteTodo, h]

/-- Witness for C9: updating a task whose id is absent from the empty map
succeeds and inserts it, while complete on the same absent id fails. -/
theorem c9_update_upsert_witness :
    lookupA "x" ([] : List (String × Todo)) = none ∧
    (updateTodo [] witTask (.ok ()) (.ok ())).1 = insertA "x" witTask [] ∧
    (completeTodo [] "x" 4 (.ok ()) (.ok ())).2 = .error "Todo not found" := by
  have h := c9_update_upsert [] witTask (.ok ()) (.ok ()) 4
  exact ⟨by decide, h.1, (h.2.2.2 (by decide)).1⟩

end TodoCli
